import Mathlib

/-!
Verification of the NFS-Status health-check script (src/nfs_status.py).

The script is embedded shallowly: external effects (subprocess output, the
ping exit status, file readability/writability) are supplied by a `World`
value, and the side effects of the script itself (log lines, action
invocations, os.system commands, email alerts) are collected as an explicit
`Event` trace.  Every definition is translated from the source file; doc comments
cite the Python function each one embeds.
-/

namespace NFSStatus

/-- Result of running one external command via subprocess: captured stdout,
stderr, exit code, and whether the command exceeded the enforced timeout. -/
structure CmdResult where
  stdout : String
  stderr : String
  exitCode : Int
  timedOut : Bool
deriving DecidableEq

/-- The environment a single invocation of the script observes: the exit
status `os.system` returns for a command line, the result of each
subprocess command, and whether a file path is readable / writable. -/
structure World where
  pingExit : String → Int
  cmdResult : String → CmdResult
  readable : String → Bool
  writable : String → Bool

/-- Boolean prefix test on character lists (used to embed the Python
substring operator `in`). -/
def prefOf : List Char → List Char → Bool
  | [], _ => true
  | _ :: _, [] => false
  | a :: asr, b :: bs => a == b && prefOf asr bs

/-- Boolean contiguous-substring test on character lists. -/
def subOf (p : List Char) : List Char → Bool
  | [] => prefOf p []
  | b :: bs => prefOf p (b :: bs) || subOf p bs

/-- Embedding of the Python expression `pat in s`: substring containment
on strings. -/
def pyIn (pat s : String) : Bool := subOf pat.data s.data

/-- Embeds `get_stdout` (nfs_status.py lines 85-90): runs the command with a
5 second subprocess timeout and returns its stdout, or the empty string when
the command timed out (`subprocess.TimeoutExpired` is caught). -/
def get_stdout (w : World) (cmd : String) : String :=
  let r := w.cmdResult cmd
  if r.timedOut then "" else r.stdout

/-- Embeds `ping_test` (lines 117-119): `os.system` on the ping command line
(which carries the `-w2` deadline of ping itself); passes iff the exit
status is 0. -/
def ping_test (w : World) (host : String) : Bool :=
  w.pingExit ("ping -c 1 -w2 " ++ host ++ " > /dev/null 2>&1") == 0

/-- Embeds `server_available` (lines 124-126). -/
def server_available (w : World) (host : String) : Bool :=
  pyIn "version 4 ready and waiting"
    (get_stdout w ("rpcinfo -t " ++ host ++ " nfs 4"))

set_option linter.unusedVariables false in
/-- Embeds `share_available` (lines 131-133).  Note: the source checks for
the literal string "/logs" in the showmount output; the `share` parameter is
accepted but never used. -/
def share_available (w : World) (host share : String) : Bool :=
  pyIn "/logs" (get_stdout w ("showmount -e " ++ host))

/-- Modelled from the spec: the share-exportability pass condition as the
spec states it ("Output contains the configured share path string"), i.e.
the showmount output contains "/" followed by the configured share name.
Used only to compare the `share_available` of the source against the
spec. -/
def share_available_spec (w : World) (host share : String) : Bool :=
  pyIn ("/" ++ share) (get_stdout w ("showmount -e " ++ host))

/-- Embeds `share_mounted` (lines 138-140). -/
def share_mounted (w : World) (host share mp : String) : Bool :=
  let df_output := get_stdout w "df -h"
  pyIn (host ++ ":/" ++ share) df_output && pyIn mp df_output

/-- Embeds `share_readable` (lines 145-151): opening the test file for
reading succeeds. -/
def share_readable (w : World) (fp : String) : Bool := w.readable fp

/-- Embeds `share_writeable` (lines 156-162): opening the test file for
writing and writing a timestamp line succeeds. -/
def share_writeable (w : World) (fp : String) : Bool := w.writable fp

/-- Embeds `raid_mounted` (lines 204-206): both the device string and the
mount point string occur in the `df -h` output. -/
def raid_mounted (w : World) (device mp : String) : Bool :=
  let df := get_stdout w "df -h"
  pyIn device df && pyIn mp df

/-- The two callables the script registers as fail/success actions
(`mount_raid`, lines 195-199, and `email_alert`, lines 166-191). -/
inductive ActionFunc
  | mount_raid
  | email_alert
deriving DecidableEq

/-- Observable events of one invocation: a log line (with its
error-severity flag), the invocation of a registered action callable (the
source logs "executing f(args)" and then calls `f(*args)`), an `os.system`
command, and the sending of one alert email (the failure message that the
fixed template is instantiated with). -/
inductive Event
  | log (isError : Bool) (msg : String)
  | invoke (f : ActionFunc) (args : List String)
  | sysCmd (cmd : String)
  | email (failure : String)
deriving DecidableEq

/-- Embeds `mount_raid` (lines 195-199): when `umount` is set (its Python
default is `True`), first `umount -fl` the mount point, then `mount` the
device there.  Both go through `os.system`. -/
def mount_raid (device mp : String) (umount : Bool) : List Event :=
  (if umount then [Event.sysCmd ("umount -fl " ++ mp)] else []) ++
    [Event.sysCmd ("mount " ++ device ++ " " ++ mp)]

/-- Embeds `email_alert` (lines 166-191): composes the fixed template
around the failure string and submits one message over SMTP. -/
def email_alert (failure : String) : List Event := [Event.email failure]

/-- Effects of calling an action callable on its bound argument list.  Both
call sites of `mount_raid` pass two arguments, so `umount` keeps its Python
default `True`. -/
def actionEffects : ActionFunc → List String → List Event
  | ActionFunc.mount_raid, args =>
      mount_raid (args.getD 0 "") (args.getD 1 "") true
  | ActionFunc.email_alert, args => email_alert (args.getD 0 "")

/-- One action execution as performed in `Test.run` (lines 58-64): the
"executing f(args)" step followed by the effects of the call. -/
def runAction (f : ActionFunc) (args : List String) : List Event :=
  Event.invoke f args :: actionEffects f args

/-- The six check predicates the script defines. -/
inductive PredFn
  | ping_test
  | server_available
  | share_available
  | share_mounted
  | share_readable
  | share_writeable
deriving DecidableEq

/-- Applies a predicate to its bound argument list, `func(*args)`
(line 51). -/
def evalPred (w : World) : PredFn → List String → Bool
  | PredFn.ping_test, args => ping_test w (args.getD 0 "")
  | PredFn.server_available, args => server_available w (args.getD 0 "")
  | PredFn.share_available, args =>
      share_available w (args.getD 0 "") (args.getD 1 "")
  | PredFn.share_mounted, args =>
      share_mounted w (args.getD 0 "") (args.getD 1 "") (args.getD 2 "")
  | PredFn.share_readable, args => share_readable w (args.getD 0 "")
  | PredFn.share_writeable, args => share_writeable w (args.getD 0 "")

/-- Embeds the `Test` class state (lines 30-47): name, predicate with its
bound arguments, the alert-eligibility flag `email`, and the two
insertion-ordered action dictionaries, kept as association lists. -/
structure Test where
  name : String
  func : PredFn
  args : List String
  email : Bool
  fail : List (ActionFunc × List String)
  success : List (ActionFunc × List String)

/-- Embeds `Test.__init__` (lines 31-39): `email` defaults to `True`, both
action dictionaries start empty. -/
def Test.init (name : String) (func : PredFn) (args : List String) : Test :=
  ⟨name, func, args, true, [], []⟩

/-- Insertion into a Python dict rendered as an association list: an
existing key keeps its position and gets the new value; a new key is
appended at the end (Python 3.7+ dict semantics for `d[k] = v`). -/
def dictInsert {K V : Type} [DecidableEq K] (k : K) (v : V) :
    List (K × V) → List (K × V)
  | [] => [(k, v)]
  | (k', v') :: rest =>
      if k' = k then (k, v) :: rest else (k', v') :: dictInsert k v rest

/-- Embeds `Test.add_fail_action` (lines 42-43): `self.fail[func] = args`. -/
def add_fail_action (f : ActionFunc) (args : List String) (t : Test) : Test :=
  { t with fail := dictInsert f args t.fail }

/-- Embeds `Test.add_success_action` (lines 46-47). -/
def add_success_action (f : ActionFunc) (args : List String) (t : Test) :
    Test :=
  { t with success := dictInsert f args t.success }

/-- Embeds `Test.run` (lines 50-65): evaluate the predicate, log the
outcome (error severity on failure), then on failure add the alert action
when `email` is set and execute every fail action in dictionary order, or
on success execute every success action.  Returns the test (whose `fail`
dictionary the run may have extended), the emitted events, and the result
of the predicate. -/
def Test.run (w : World) (t : Test) : Test × List Event × Bool :=
  let ret := evalPred w t.func t.args
  let ev0 :=
    Event.log (!ret)
      ("test \"" ++ t.name ++ "\" " ++ (if ret then "passed" else "failed"))
  if ret then
    (t, ev0 :: (t.success.map (fun p => runAction p.1 p.2)).flatten, true)
  else
    let t1 :=
      if t.email then
        add_fail_action ActionFunc.email_alert [t.name ++ " test failed"] t
      else t
    (t1, ev0 :: (t1.fail.map (fun p => runAction p.1 p.2)).flatten, false)

/-- Embeds `TestRunner.run_tests` (lines 77-81): run the tests in list
order; when one fails, call `exit(1)` — rendered as the exit code `some 1`,
with no later test run.  `none` means the loop finished and control
returned to the caller. -/
def run_tests (w : World) : List Test → List Event × Option Nat
  | [] => ([], none)
  | t :: ts =>
    let r := Test.run w t
    if r.2.2 then
      let rest := run_tests w ts
      (r.2.1 ++ rest.1, rest.2)
    else (r.2.1, some 1)

/-- Configuration constant `host` (line 219). -/
def host : String := "172.16.1.1"

/-- Configuration constant `share` (line 220). -/
def share : String := "logs"

/-- Configuration constant `mount_point` (line 221). -/
def mount_point : String := "/mnt/logs"

/-- Configuration constant `test_fp` (line 222), `os.path.join` of the
mount point and "status.test". -/
def test_fp : String := mount_point ++ "/status.test"

/-- Configuration constant `raid` (line 223). -/
def raid : String := "/dev/sda1"

/-- The six tests `main` builds (lines 235-257): each check gets
`mount_raid` with the raid device and mount point as its one explicit fail
action. -/
def mainTests : List Test :=
  [add_fail_action ActionFunc.mount_raid [raid, mount_point]
      (Test.init "Ping" PredFn.ping_test [host]),
   add_fail_action ActionFunc.mount_raid [raid, mount_point]
      (Test.init "Server available" PredFn.server_available [host]),
   add_fail_action ActionFunc.mount_raid [raid, mount_point]
      (Test.init "Share available" PredFn.share_available [host, share]),
   add_fail_action ActionFunc.mount_raid [raid, mount_point]
      (Test.init "Share mounted" PredFn.share_mounted
        [host, share, mount_point]),
   add_fail_action ActionFunc.mount_raid [raid, mount_point]
      (Test.init "Share readable" PredFn.share_readable [test_fp]),
   add_fail_action ActionFunc.mount_raid [raid, mount_point]
      (Test.init "Share writeable" PredFn.share_writeable [test_fp])]

/-- Embeds `main` (lines 210-263): log "starting"; if the backup device is
already mounted, log an error and return 1 before building any test;
otherwise run the six tests (a failing test exits the process with status
1 from inside the runner) and on normal return log the final line and
return 0. -/
def main (w : World) : List Event × Nat :=
  let ev0 : List Event := [Event.log false "starting"]
  if raid_mounted w raid mount_point then
    (ev0 ++ [Event.log true "backup already mounted, exiting"], 1)
  else
    match run_tests w mainTests with
    | (evs, some code) => (ev0 ++ evs, code)
    | (evs, none) =>
        (ev0 ++ evs ++ [Event.log false "finished, all tests passed"], 0)

/-- The action invocations recorded in a trace, in order. -/
def invocations (evs : List Event) : List (ActionFunc × List String) :=
  evs.filterMap (fun e =>
    match e with
    | Event.invoke f a => some (f, a)
    | _ => none)

/-- The `os.system` command lines recorded in a trace, in order. -/
def sysCmds (evs : List Event) : List String :=
  evs.filterMap (fun e =>
    match e with
    | Event.sysCmd c => some c
    | _ => none)

/-- The alert emails recorded in a trace, in order. -/
def emails (evs : List Event) : List String :=
  evs.filterMap (fun e =>
    match e with
    | Event.email m => some m
    | _ => none)

/-- The error-severity log lines recorded in a trace, in order. -/
def errorLogs (evs : List Event) : List String :=
  evs.filterMap (fun e =>
    match e with
    | Event.log true m => some m
    | _ => none)

/-- External commands the script can spawn, by call site. -/
inductive ExtCall
  | pingCall
  | rpcinfoCall
  | showmountCall
  | dfCall
  | umountCall
  | mountCall
deriving DecidableEq

/-- Timeout, in seconds, that the invoking layer enforces on each external
command, translated from the call sites: `rpcinfo`, `showmount` and `df`
are run through `get_stdout`, whose `subprocess.run` call passes
`timeout=5` (line 87); `ping` (line 118), `umount` and `mount` (lines
197-199) are launched with `os.system`, which takes no timeout — the only
time bound on ping is its own `-w2` flag inside the command line. -/
def wrapperTimeout : ExtCall → Option Nat
  | ExtCall.rpcinfoCall => some 5
  | ExtCall.showmountCall => some 5
  | ExtCall.dfCall => some 5
  | ExtCall.pingCall => none
  | ExtCall.umountCall => none
  | ExtCall.mountCall => none

/-! ### Concrete worlds and checks used to exercise the theorems -/

/-- Command result with the given stdout, empty stderr, exit status 0, and
no timeout. -/
def okOut (s : String) : CmdResult := ⟨s, "", 0, false⟩

/-- World whose `df -h` output lists the raid device mounted at the mount
point. -/
def wGuard : World :=
  ⟨fun _ => 0,
   fun c => if c = "df -h" then okOut "/dev/sda1 50G 10G 40G 20% /mnt/logs"
     else okOut "",
   fun _ => true, fun _ => true⟩

/-- World where every file is readable but none is writable, and every
command returns empty output. -/
def wRW : World := ⟨fun _ => 0, fun _ => okOut "", fun _ => true, fun _ => false⟩

/-- A check that passes under `wRW`. -/
def tPass : Test := Test.init "Read A" PredFn.share_readable ["/tmp/a"]

/-- A check that fails under `wRW`. -/
def tFail : Test := Test.init "Write B" PredFn.share_writeable ["/tmp/a"]

/-- A check placed after the failing one. -/
def tAfter : Test := Test.init "Read C" PredFn.share_readable ["/tmp/a"]

/-- World whose showmount listing for the configured host exports exactly
the share "data". -/
def wData : World :=
  ⟨fun _ => 0,
   fun c => if c = "showmount -e 172.16.1.1" then okOut "/data" else okOut "",
   fun _ => true, fun _ => true⟩

/-- World in which every subprocess command exceeds its timeout. -/
def wTimeout : World :=
  ⟨fun _ => 0, fun c => ⟨"never seen " ++ c, "", 0, true⟩,
   fun _ => true, fun _ => true⟩

/-- World whose commands all succeed with a fixed stdout per command. -/
def wQuiet : World :=
  ⟨fun _ => 0, fun c => ⟨"out " ++ c, "", 0, false⟩,
   fun _ => true, fun _ => true⟩

/-- World producing the same stdout as `wQuiet` but with nonzero exit
statuses and noisy stderr on every command. -/
def wNoisy : World :=
  ⟨fun _ => 1, fun c => ⟨"out " ++ c, "boom", 7, false⟩,
   fun _ => true, fun _ => true⟩

/-- A check with distinct action callables: one success action and one fail
action, passing under `wRW`. -/
def tBoth : Test :=
  add_fail_action ActionFunc.mount_raid [raid, mount_point]
    (add_success_action ActionFunc.email_alert ["all good"]
      (Test.init "Read probe" PredFn.share_readable ["/tmp/a"]))

/-- World in which the NFS server is healthy: ping succeeds, rpcinfo
reports NFSv4, showmount exports the share, and df lists the NFS mount
(and not the raid device); the test file is readable and writable. -/
def wHealthy : World :=
  ⟨fun _ => 0,
   fun c =>
     if c = "rpcinfo -t 172.16.1.1 nfs 4" then
       okOut "program 100003 version 4 ready and waiting"
     else if c = "showmount -e 172.16.1.1" then
       okOut "Export list for 172.16.1.1: /logs 172.16.1.0/24"
     else if c = "df -h" then
       okOut "172.16.1.1:/logs 100G 50G 50G 50% /mnt/logs"
     else okOut "",
   fun _ => true, fun _ => true⟩

/-- World where ping fails and everything else is quiet. -/
def wPingDown : World :=
  ⟨fun _ => 1, fun _ => okOut "", fun _ => true, fun _ => true⟩

/-! ### Helper lemmas -/

/-- The third component returned by `Test.run` is the value of the
predicate. -/
theorem Test.run_ret (w : World) (t : Test) :
    (Test.run w t).2.2 = evalPred w t.func t.args := by
  unfold Test.run
  cases h : evalPred w t.func t.args <;> simp [h]

theorem invocations_append (a b : List Event) :
    invocations (a ++ b) = invocations a ++ invocations b := by
  simp [invocations]

theorem invocations_log (b : Bool) (m : String) (evs : List Event) :
    invocations (Event.log b m :: evs) = invocations evs := by
  simp [invocations]

theorem invocations_actionEffects (f : ActionFunc) (a : List String) :
    invocations (actionEffects f a) = [] := by
  cases f <;> simp [actionEffects, mount_raid, email_alert, invocations]

theorem invocations_runAction (f : ActionFunc) (a : List String) :
    invocations (runAction f a) = [(f, a)] := by
  have h := invocations_actionEffects f a
  simp [runAction, invocations] at h ⊢
  exact h

/-- Executing an action list records exactly that list, in order. -/
theorem invocations_flatten (l : List (ActionFunc × List String)) :
    invocations ((l.map (fun p => runAction p.1 p.2)).flatten) = l := by
  induction l with
  | nil => rfl
  | cons p ps ih =>
    simp only [List.map_cons, List.flatten_cons, invocations_append,
      invocations_runAction, ih]
    rfl

/-- The event trace `Test.run` emits: the outcome log line followed by the
invocations of exactly one of the two action lists. -/
theorem Test.run_events (w : World) (t : Test) :
    invocations (Test.run w t).2.1 =
      if evalPred w t.func t.args then t.success
      else if t.email then
        dictInsert ActionFunc.email_alert [t.name ++ " test failed"] t.fail
      else t.fail := by
  unfold Test.run
  cases h : evalPred w t.func t.args <;> cases he : t.email <;>
    simp [h, he, add_fail_action, invocations_log, invocations_flatten]

/-! ### Claim theorems -/

/-- C1: fail-fast — when every check before `t` passes and the predicate of
`t` returns unhealthy, the runner terminates with exit status 1 and the
trace is exactly the trace of the passing prefix followed by the trace of
`t` alone: no check after `t` is ever executed, whatever `post` contains. -/
theorem run_tests_fail_fast (w : World) (pre post : List Test) (t : Test)
    (hpre : ∀ t' ∈ pre, evalPred w t'.func t'.args = true)
    (ht : evalPred w t.func t.args = false) :
    run_tests w (pre ++ t :: post) =
      ((run_tests w pre).1 ++ (Test.run w t).2.1, some 1) := by
  induction pre with
  | nil =>
    have hf : (Test.run w t).2.2 = false := by rw [Test.run_ret]; exact ht
    simp [run_tests, hf]
  | cons p ps ih =>
    have hp : (Test.run w p).2.2 = true := by
      rw [Test.run_ret]; exact hpre p (by simp)
    have ihh := ih (fun t' ht' => hpre t' (by simp [ht']))
    simp [run_tests, hp, ihh, List.append_assoc]

/-- Witness for `run_tests_fail_fast`: one passing check, then a failing
one, then a check that is provably never reached. -/
theorem run_tests_fail_fast_witness :
    run_tests wRW ([tPass] ++ tFail :: [tAfter]) =
      ((run_tests wRW [tPass]).1 ++ (Test.run wRW tFail).2.1, some 1) :=
  run_tests_fail_fast wRW [tPass] [tAfter] tFail (by decide) (by decide)

/-- C3: pre-flight guard — when the fallback device string and the mount
point string both occur in the mount-table listing, `main` produces exactly
the two start-up log lines (one of them the single error line) and exit
status 1: no action is invoked and no check is run. -/
theorem preflight_guard (w : World)
    (h : raid_mounted w raid mount_point = true) :
    main w = ([Event.log false "starting",
        Event.log true "backup already mounted, exiting"], 1) ∧
    errorLogs (main w).1 = ["backup already mounted, exiting"] ∧
    invocations (main w).1 = [] := by
  have hm : main w = ([Event.log false "starting",
      Event.log true "backup already mounted, exiting"], 1) := by
    simp [main, h]
  exact ⟨hm, by rw [hm]; rfl, by rw [hm]; rfl⟩

/-- Witness for `preflight_guard` at a concrete world whose mount table
lists the raid device at the mount point. -/
theorem preflight_guard_witness :
    main wGuard = ([Event.log false "starting",
        Event.log true "backup already mounted, exiting"], 1) ∧
    errorLogs (main wGuard).1 = ["backup already mounted, exiting"] ∧
    invocations (main wGuard).1 = [] :=
  preflight_guard wGuard (by decide)

/-- C4: the alert action is added to the fail-action dictionary of the
check exactly when the check is alert-eligible and its predicate failed,
and alert-eligibility defaults to eligible at construction. -/
theorem alert_action_iff (w : World) (t : Test) (n : String) (f : PredFn)
    (a : List String) :
    (Test.run w t).1.fail =
      (if t.email && !(evalPred w t.func t.args) then
        dictInsert ActionFunc.email_alert [t.name ++ " test failed"] t.fail
      else t.fail) ∧
    (Test.init n f a).email = true := by
  refine ⟨?_, rfl⟩
  unfold Test.run
  cases h : evalPred w t.func t.args <;> cases he : t.email <;>
    simp [h, he, add_fail_action]

/-- C5: per run of a check, exactly one of its two action sets executes:
the recorded invocations are exactly the success actions when the predicate
passed, and exactly the fail actions (with the implicit alert when
eligible) when it failed — never both, and never neither. -/
theorem one_action_set_executes (w : World) (t : Test) :
    invocations (Test.run w t).2.1 =
      (if evalPred w t.func t.args then t.success
       else if t.email then
         dictInsert ActionFunc.email_alert [t.name ++ " test failed"] t.fail
       else t.fail) :=
  Test.run_events w t

/-- C2 (code bug): with configured share "data" and a showmount listing
that contains "/data", the `share_available` of the source still reports
the share unavailable, because it tests for the literal "/logs" and never
reads its `share` parameter; the pass condition stated by the spec
(`share_available_spec`) disagrees with the code at this input. -/
theorem share_available_ignores_share :
    share_available wData host "data" = false ∧
    share_available_spec wData host "data" = true ∧
    share_available wData host "data" ≠
      share_available_spec wData host "data" := by
  refine ⟨by decide, by decide, by decide⟩

/-- A nonempty character list is not a substring of the empty list. -/
theorem subOf_nil_of_ne (a : Char) (l : List Char) :
    subOf (a :: l) [] = false := rfl

/-- A nonempty pattern is not a Python-substring of the empty string. -/
theorem pyIn_empty_right (pat : String) (h : pat.data ≠ []) :
    pyIn pat "" = false := by
  unfold pyIn
  cases hd : pat.data with
  | nil => exact absurd hd h
  | cons a l => exact subOf_nil_of_ne a l

/-- The mount pattern "host:/share" always holds at least the two
characters ":/", so it is never the empty string. -/
theorem mount_pattern_ne_nil (hst sh : String) :
    (hst ++ ":/" ++ sh).data ≠ [] := by
  intro hcontra
  rw [String.data_append, String.data_append] at hcontra
  have hcl : (":/").data = [':', '/'] := rfl
  rw [hcl] at hcontra
  simp at hcontra

/-- C6 counterexample: the claim that every external command invocation
applies a hard 5-second timeout is false at the ping invocation, which is
launched through `os.system` with no wrapper timeout (its only time bound
is the `-w2` flag inside the command line). -/
theorem ping_has_no_wrapper_timeout :
    wrapperTimeout ExtCall.pingCall ≠ some 5 := by decide

/-- C6 amended: every command invoked through the stdout wrapper (rpcinfo,
showmount, df) carries the hard 5-second subprocess timeout, and when such
a command times out the wrapper yields empty output, so each probe built on
it evaluates to unhealthy rather than crashing; ping, mount and umount are
not run through the wrapper. -/
theorem wrapped_commands_timeout (w : World) (hst sh mp : String)
    (h1 : (w.cmdResult ("rpcinfo -t " ++ hst ++ " nfs 4")).timedOut = true)
    (h2 : (w.cmdResult ("showmount -e " ++ hst)).timedOut = true)
    (h3 : (w.cmdResult "df -h").timedOut = true) :
    wrapperTimeout ExtCall.rpcinfoCall = some 5 ∧
    wrapperTimeout ExtCall.showmountCall = some 5 ∧
    wrapperTimeout ExtCall.dfCall = some 5 ∧
    get_stdout w ("rpcinfo -t " ++ hst ++ " nfs 4") = "" ∧
    server_available w hst = false ∧
    share_available w hst sh = false ∧
    share_mounted w hst sh mp = false ∧
    raid_mounted w raid mount_point = false := by
  have e1 : get_stdout w ("rpcinfo -t " ++ hst ++ " nfs 4") = "" := by
    simp [get_stdout, h1]
  have e2 : get_stdout w ("showmount -e " ++ hst) = "" := by
    simp [get_stdout, h2]
  have e3 : get_stdout w "df -h" = "" := by
    simp [get_stdout, h3]
  refine ⟨rfl, rfl, rfl, e1, ?_, ?_, ?_, ?_⟩
  · rw [server_available, e1]; decide
  · rw [share_available, e2]; decide
  · rw [share_mounted]
    simp only [e3]
    rw [pyIn_empty_right _ (mount_pattern_ne_nil hst sh)]
    simp
  · rw [raid_mounted]
    simp only [e3]
    have : pyIn raid "" = false := by decide
    rw [this]
    simp

/-- Witness for `wrapped_commands_timeout` at a world where every
subprocess command times out. -/
theorem wrapped_commands_timeout_witness :
    wrapperTimeout ExtCall.rpcinfoCall = some 5 ∧
    wrapperTimeout ExtCall.showmountCall = some 5 ∧
    wrapperTimeout ExtCall.dfCall = some 5 ∧
    get_stdout wTimeout ("rpcinfo -t " ++ host ++ " nfs 4") = "" ∧
    server_available wTimeout host = false ∧
    share_available wTimeout host share = false ∧
    share_mounted wTimeout host share mount_point = false ∧
    raid_mounted wTimeout raid mount_point = false :=
  wrapped_commands_timeout wTimeout host share mount_point
    (by decide) (by decide) (by decide)

/-- C10: every probe built on `get_stdout` depends only on the stdout text
of its command: when two worlds agree on the captured stdout of a command
and on whether it timed out, the probe outcomes agree, whatever exit
statuses and stderr streams the commands have. -/
theorem probes_read_only_stdout (w1 w2 : World) (hst sh mp dev : String)
    (hrpc : (w1.cmdResult ("rpcinfo -t " ++ hst ++ " nfs 4")).stdout =
        (w2.cmdResult ("rpcinfo -t " ++ hst ++ " nfs 4")).stdout ∧
      (w1.cmdResult ("rpcinfo -t " ++ hst ++ " nfs 4")).timedOut =
        (w2.cmdResult ("rpcinfo -t " ++ hst ++ " nfs 4")).timedOut)
    (hshow : (w1.cmdResult ("showmount -e " ++ hst)).stdout =
        (w2.cmdResult ("showmount -e " ++ hst)).stdout ∧
      (w1.cmdResult ("showmount -e " ++ hst)).timedOut =
        (w2.cmdResult ("showmount -e " ++ hst)).timedOut)
    (hdf : (w1.cmdResult "df -h").stdout = (w2.cmdResult "df -h").stdout ∧
      (w1.cmdResult "df -h").timedOut = (w2.cmdResult "df -h").timedOut) :
    server_available w1 hst = server_available w2 hst ∧
    share_available w1 hst sh = share_available w2 hst sh ∧
    share_mounted w1 hst sh mp = share_mounted w2 hst sh mp ∧
    raid_mounted w1 dev mp = raid_mounted w2 dev mp := by
  have g1 : get_stdout w1 ("rpcinfo -t " ++ hst ++ " nfs 4") =
      get_stdout w2 ("rpcinfo -t " ++ hst ++ " nfs 4") := by
    simp [get_stdout, hrpc.1, hrpc.2]
  have g2 : get_stdout w1 ("showmount -e " ++ hst) =
      get_stdout w2 ("showmount -e " ++ hst) := by
    simp [get_stdout, hshow.1, hshow.2]
  have g3 : get_stdout w1 "df -h" = get_stdout w2 "df -h" := by
    simp [get_stdout, hdf.1, hdf.2]
  exact ⟨by rw [server_available, server_available, g1],
    by rw [share_available, share_available, g2],
    by rw [share_mounted, share_mounted, g3],
    by rw [raid_mounted, raid_mounted, g3]⟩

/-- Witness for `probes_read_only_stdout`: the quiet and noisy worlds agree
on stdout everywhere, so every probe agrees, despite differing exit codes
and stderr. -/
theorem probes_read_only_stdout_witness :
    server_available wQuiet host = server_available wNoisy host ∧
    share_available wQuiet host share = share_available wNoisy host share ∧
    share_mounted wQuiet host share mount_point =
      share_mounted wNoisy host share mount_point ∧
    raid_mounted wQuiet raid mount_point =
      raid_mounted wNoisy raid mount_point :=
  probes_read_only_stdout wQuiet wNoisy host share mount_point raid
    ⟨by decide, by decide⟩ ⟨by decide, by decide⟩ ⟨by decide, by decide⟩

/-- Re-inserting the same key overwrites the value left by the previous
insertion. -/
theorem dictInsert_dictInsert {K V : Type} [DecidableEq K] (k : K)
    (v1 v2 : V) (l : List (K × V)) :
    dictInsert k v2 (dictInsert k v1 l) = dictInsert k v2 l := by
  induction l with
  | nil => simp [dictInsert]
  | cons p ps ih =>
    cases p with
    | mk k' v' =>
      by_cases h : k' = k
      · simp [dictInsert, h]
      · simp [dictInsert, h, ih]

/-- Keys after an insertion: unchanged when the key was present, the key
appended at the end otherwise. -/
theorem dictInsert_keys {K V : Type} [DecidableEq K] (k : K) (v : V)
    (l : List (K × V)) :
    (dictInsert k v l).map Prod.fst =
      if k ∈ l.map Prod.fst then l.map Prod.fst
      else l.map Prod.fst ++ [k] := by
  induction l with
  | nil => simp [dictInsert]
  | cons p ps ih =>
    cases p with
    | mk k' v' =>
      by_cases h : k' = k
      · simp [dictInsert, h]
      · have h2 : ¬k = k' := fun hh => h hh.symm
        by_cases hm : k ∈ ps.map Prod.fst <;>
          simp [dictInsert, h, h2, hm, ih]

/-- Insertion preserves distinctness of the keys. -/
theorem dictInsert_nodup {K V : Type} [DecidableEq K] (k : K) (v : V)
    (l : List (K × V)) (h : (l.map Prod.fst).Nodup) :
    ((dictInsert k v l).map Prod.fst).Nodup := by
  rw [dictInsert_keys]
  by_cases hm : k ∈ l.map Prod.fst
  · simpa [hm] using h
  · simp only [hm, if_false, List.nodup_append]
    exact ⟨h, List.nodup_singleton k, by
      intro a ha hb
      simp at hb
      exact hm (hb ▸ ha)⟩

/-- Inserting a fresh key appends the binding at the end. -/
theorem dictInsert_of_not_mem {K V : Type} [DecidableEq K] (k : K) (v : V)
    (l : List (K × V)) (h : k ∉ l.map Prod.fst) :
    dictInsert k v l = l ++ [(k, v)] := by
  induction l with
  | nil => rfl
  | cons p ps ih =>
    cases p with
    | mk k' v' =>
      simp only [List.map_cons, List.mem_cons] at h
      push_neg at h
      have h1 : ¬k' = k := fun hh => h.1 hh.symm
      simp [dictInsert, h1, ih h.2]

/-- C9: registering an action under a callable that is already registered
on the same check replaces the bound arguments of that callable in place
rather than adding a second entry, and in a single run each distinct
callable is invoked at most once per branch: the callables in the
invocation list are distinct whenever the two action dictionaries of the
check have distinct callables, which insertion preserves. -/
theorem action_registration_replaces (w : World) (t : Test) (f : ActionFunc)
    (args1 args2 : List String)
    (hf : (t.fail.map Prod.fst).Nodup)
    (hs : (t.success.map Prod.fst).Nodup) :
    add_fail_action f args2 (add_fail_action f args1 t) =
      add_fail_action f args2 t ∧
    add_success_action f args2 (add_success_action f args1 t) =
      add_success_action f args2 t ∧
    ((invocations (Test.run w t).2.1).map Prod.fst).Nodup := by
  refine ⟨?_, ?_, ?_⟩
  · simp [add_fail_action, dictInsert_dictInsert]
  · simp [add_success_action, dictInsert_dictInsert]
  · rw [Test.run_events]
    cases hev : evalPred w t.func t.args
    · by_cases he : t.email
      · simp [he, dictInsert_nodup _ _ _ hf]
      · simp [he, hf]
    · simpa using hs

/-- Witness for `action_registration_replaces` on a concrete check. -/
theorem action_registration_replaces_witness :
    add_fail_action ActionFunc.mount_raid ["x"]
        (add_fail_action ActionFunc.mount_raid ["y"] tBoth) =
      add_fail_action ActionFunc.mount_raid ["x"] tBoth ∧
    add_success_action ActionFunc.mount_raid ["x"]
        (add_success_action ActionFunc.mount_raid ["y"] tBoth) =
      add_success_action ActionFunc.mount_raid ["x"] tBoth ∧
    ((invocations (Test.run wRW tBoth).2.1).map Prod.fst).Nodup :=
  action_registration_replaces wRW tBoth ActionFunc.mount_raid ["y"] ["x"]
    (by decide) (by decide)

/-- C7: when the pre-flight guard does not trip and all six checks pass,
`main` logs exactly the start line, one pass line per check and the final
"finished, all tests passed" line, and returns exit status 0, with no email
sent and no `os.system` command issued. -/
theorem all_checks_pass_behavior (w : World)
    (h0 : raid_mounted w raid mount_point = false)
    (h1 : ping_test w host = true)
    (h2 : server_available w host = true)
    (h3 : share_available w host share = true)
    (h4 : share_mounted w host share mount_point = true)
    (h5 : share_readable w test_fp = true)
    (h6 : share_writeable w test_fp = true) :
    (main w).2 = 0 ∧
    (main w).1.getLast? =
      some (Event.log false "finished, all tests passed") ∧
    emails (main w).1 = [] ∧
    sysCmds (main w).1 = [] := by
  have hm : main w =
      ([Event.log false "starting",
        Event.log false "test \"Ping\" passed",
        Event.log false "test \"Server available\" passed",
        Event.log false "test \"Share available\" passed",
        Event.log false "test \"Share mounted\" passed",
        Event.log false "test \"Share readable\" passed",
        Event.log false "test \"Share writeable\" passed",
        Event.log false "finished, all tests passed"], 0) := by
    simp [main, h0, mainTests, run_tests, Test.run, evalPred, Test.init,
      add_fail_action, dictInsert, List.getD, h1, h2, h3, h4, h5, h6]
  rw [hm]
  exact ⟨rfl, rfl, rfl, rfl⟩

/-- Witness for `all_checks_pass_behavior` at the healthy world. -/
theorem all_checks_pass_behavior_witness :
    (main wHealthy).2 = 0 ∧
    (main wHealthy).1.getLast? =
      some (Event.log false "finished, all tests passed") ∧
    emails (main wHealthy).1 = [] ∧
    sysCmds (main wHealthy).1 = [] :=
  all_checks_pass_behavior wHealthy (by decide) (by decide) (by decide)
    (by decide) (by decide) (by decide) (by decide)

/-- C8: fail actions execute in registration order with the implicit alert
appended last (for any check whose dictionary does not already hold the
alert); `mount_raid` first issues the forced lazy unmount of the mount
point and then mounts the device there; and when the reachability check
fails the whole run consists of exactly one unmount-then-mount sequence
followed by one alert email, with exit status 1. -/
theorem fail_actions_order (w : World) (t : Test) (dev mp : String)
    (he : t.email = true)
    (hn : ActionFunc.email_alert ∉ t.fail.map Prod.fst)
    (hx : evalPred w t.func t.args = false)
    (hping : ping_test w host = false)
    (hguard : raid_mounted w raid mount_point = false) :
    invocations (Test.run w t).2.1 =
      t.fail ++ [(ActionFunc.email_alert, [t.name ++ " test failed"])] ∧
    mount_raid dev mp true =
      [Event.sysCmd ("umount -fl " ++ mp),
       Event.sysCmd ("mount " ++ dev ++ " " ++ mp)] ∧
    main w =
      ([Event.log false "starting",
        Event.log true "test \"Ping\" failed",
        Event.invoke ActionFunc.mount_raid [raid, mount_point],
        Event.sysCmd ("umount -fl " ++ mount_point),
        Event.sysCmd ("mount " ++ raid ++ " " ++ mount_point),
        Event.invoke ActionFunc.email_alert ["Ping test failed"],
        Event.email "Ping test failed"], 1) := by
  refine ⟨?_, rfl, ?_⟩
  · rw [Test.run_events]
    simp [hx, he, dictInsert_of_not_mem _ _ _ hn]
  · simp [main, hguard, mainTests, run_tests, Test.run, evalPred,
      Test.init, add_fail_action, dictInsert, List.getD, hping,
      runAction, actionEffects, mount_raid, email_alert]

/-- Witness for `fail_actions_order` at the ping-down world, on the
reachability check the script builds. -/
theorem fail_actions_order_witness :
    invocations (Test.run wPingDown
        (add_fail_action ActionFunc.mount_raid [raid, mount_point]
          (Test.init "Ping" PredFn.ping_test [host]))).2.1 =
      (add_fail_action ActionFunc.mount_raid [raid, mount_point]
          (Test.init "Ping" PredFn.ping_test [host])).fail ++
        [(ActionFunc.email_alert,
          [(add_fail_action ActionFunc.mount_raid [raid, mount_point]
              (Test.init "Ping" PredFn.ping_test [host])).name ++
            " test failed"])] ∧
    mount_raid raid mount_point true =
      [Event.sysCmd ("umount -fl " ++ mount_point),
       Event.sysCmd ("mount " ++ raid ++ " " ++ mount_point)] ∧
    main wPingDown =
      ([Event.log false "starting",
        Event.log true "test \"Ping\" failed",
        Event.invoke ActionFunc.mount_raid [raid, mount_point],
        Event.sysCmd ("umount -fl " ++ mount_point),
        Event.sysCmd ("mount " ++ raid ++ " " ++ mount_point),
        Event.invoke ActionFunc.email_alert ["Ping test failed"],
        Event.email "Ping test failed"], 1) :=
  fail_actions_order wPingDown
    (add_fail_action ActionFunc.mount_raid [raid, mount_point]
      (Test.init "Ping" PredFn.ping_test [host]))
    raid mount_point (by decide) (by decide) (by decide) (by decide)
    (by decide)

end NFSStatus
